import Mathlib

/-!
Verification development for the TMoji Web backend (`backend/app/main.py`).

The pack-resolution pipeline is shallowly embedded: the identifier
normalizer's regular-expression search is modelled as a scanner over
character lists, the upstream client operations as pure functions of the
transport outcome, and the three pipeline endpoints as pure functions
parameterized by oracles describing the upstream service's replies.
-/

namespace Tmoji

/-- Characters admitted by the regex character class `[a-zA-Z0-9_]`. -/
def isWordChar (c : Char) : Bool :=
  c.isAlpha || c.isDigit || c == '_'

/-- The literal core of the pattern: `t.me/addemoji/` (14 characters). -/
def tme : List Char :=
  ['t', '.', 'm', 'e', '/', 'a', 'd', 'd', 'e', 'm', 'o', 'j', 'i', '/']

/-- The characters of the optional scheme alternative `https://`. -/
def schemeHttps : List Char := ['h', 't', 't', 'p', 's', ':', '/', '/']

/-- The characters of the optional scheme alternative `http://`. -/
def schemeHttp : List Char := ['h', 't', 't', 'p', ':', '/', '/']

/-- Matching `t\.me/addemoji/([a-zA-Z0-9_]+)` at the head of `l`:
the literal core followed by a non-empty greedy run of word characters;
returns the captured group. -/
def coreMatch (l : List Char) : Option (List Char) :=
  if tme.isPrefixOf l then
    let w := (l.drop 14).takeWhile isWordChar
    if w.isEmpty then none else some w
  else none

/-- Matching the full pattern `(?:https?://)?t\.me/addemoji/([a-zA-Z0-9_]+)`
at the head of `l`.  The optional scheme is tried greedily; since a scheme
starts with `h` and the core with `t`, the alternatives are mutually
exclusive and never backtrack into each other. -/
def matchAt (l : List Char) : Option (List Char) :=
  if schemeHttps.isPrefixOf l then coreMatch (l.drop 8)
  else if schemeHttp.isPrefixOf l then coreMatch (l.drop 7)
  else coreMatch l

/-- `re.search`: try the pattern at every position, leftmost first. -/
def searchAux : List Char → Option (List Char)
  | [] => none
  | c :: t =>
    match matchAt (c :: t) with
    | some w => some w
    | none => searchAux t

/-- Scanner for the scheme-free core pattern only: finds the first position
where `t.me/addemoji/` is followed by at least one word character and
returns that greedy captured run.  This formalizes "the first captured
name of a `t.me/addemoji/` occurrence anywhere in the input", and is
proved below to coincide with the full search `searchAux`. -/
def coreSearch : List Char → Option (List Char)
  | [] => none
  | c :: t =>
    match coreMatch (c :: t) with
    | some w => some w
    | none => coreSearch t

/-- `extract_pack_name` from `main.py`: return the regex capture if the
sharing-link pattern occurs in the input, otherwise the input unchanged. -/
def extract_pack_name (url_or_name : String) : String :=
  match searchAux url_or_name.data with
  | some w => String.mk w
  | none => url_or_name

/-- Whole-input reading of the sharing-link pattern: the input consists of
an optional scheme, then `t.me/addemoji/`, then a non-empty run of word
characters reaching the end of the input.  (Spec-side notion used to state
the normalizer claims; the code itself searches for the pattern anywhere.) -/
def fullLinkCore (l : List Char) : Bool :=
  tme.isPrefixOf l && !(l.drop 14).isEmpty && (l.drop 14).all isWordChar

/-- Whole-input sharing-link test including the optional scheme. -/
def isFullLink (s : String) : Bool :=
  fullLinkCore s.data ||
    (schemeHttps.isPrefixOf s.data && fullLinkCore (s.data.drop 8)) ||
    (schemeHttp.isPrefixOf s.data && fullLinkCore (s.data.drop 7))

/-- The fields of an upstream Sticker record read by the code.  Each field
is `Option`-valued: `none` models a key absent from the JSON object
(`dict.get` returning `None`). -/
structure Sticker where
  custom_emoji_id : Option String
  file_id : Option String
  file_unique_id : Option String
  emoji : Option String
  width : Option Nat
  height : Option Nat
  is_animated : Option Bool
  is_video : Option Bool
  set_name : Option String
  needs_repainting : Option Bool
deriving DecidableEq

/-- The nested `thumbnail` object of a sticker-set record; only its
`file_id` key is read. -/
structure Thumb where
  file_id : Option String
deriving DecidableEq

/-- The fields of an upstream sticker-set record read by the code. -/
structure StickerSet where
  name : Option String
  title : Option String
  sticker_type : Option String
  stickers : Option (List Sticker)
  thumbnail : Option Thumb
deriving DecidableEq

/-- The `EmojiData` pydantic model.  `file_url` is a required string; the
code encodes a failed file resolution as the empty string (`... or ""`). -/
structure EmojiData where
  id : String
  short_name : String
  emoji : Option String
  file_type : String
  file_url : String
  thumbnail_url : Option String
  width : Nat
  height : Nat
  is_animated : Bool
  is_video : Bool
  set_name : Option String
  needs_repainting : Bool
deriving DecidableEq

/-- The `EmojiPack` pydantic model.  `thumbnail` defaults to `None` when
the constructor omits it. -/
structure EmojiPack where
  name : String
  title : String
  sticker_type : String
  stickers : List EmojiData
  thumbnail : Option String
deriving DecidableEq

/-- An HTTPException as raised by the endpoints: status code and detail. -/
structure HTTPError where
  status : Nat
  detail : String
deriving DecidableEq

/-- `sticker_to_emoji_data` from `main.py`: map one upstream sticker record
and its resolved file URL to an `EmojiData`.  Truthiness of the upstream
boolean flags is `Option.getD false`. -/
def sticker_to_emoji_data (sticker : Sticker) (file_url : String) : EmojiData :=
  let file_type :=
    if sticker.is_animated.getD false then "tgs"
    else if sticker.is_video.getD false then "webm"
    else "png"
  ⟨sticker.custom_emoji_id.getD (sticker.file_id.getD ""),
    sticker.set_name.getD "emoji" ++ "_" ++ (sticker.file_unique_id.getD "").take 8,
    sticker.emoji,
    file_type,
    file_url,
    none,
    sticker.width.getD 512,
    sticker.height.getD 512,
    sticker.is_animated.getD false,
    sticker.is_video.getD false,
    sticker.set_name,
    sticker.needs_repainting.getD false⟩

/-- The parsed body of a `getStickerSet` reply: the `ok` flag and the
`result` object, each possibly absent. -/
structure SetResponse where
  ok : Option Bool
  result : Option StickerSet
deriving DecidableEq

/-- The parsed body of a `getCustomEmojiStickers` reply. -/
structure BatchResponse where
  ok : Option Bool
  result : Option (List Sticker)
deriving DecidableEq

/-- The `result` object of a `getFile` reply; only `file_path` is read. -/
structure FileResult where
  file_path : Option String
deriving DecidableEq

/-- The parsed body of a `getFile` reply. -/
structure FileResponse where
  ok : Option Bool
  result : Option FileResult
deriving DecidableEq

/-- `TelegramAPI.get_sticker_set`.  The argument is the transport outcome:
`.error ()` models any exception raised while posting or parsing (caught
by the `try/except`, which returns `None`); `.ok r` the parsed JSON body.
A non-truthy `ok` flag also yields `None`; otherwise the `result` object
(or `None` when that key is missing) is returned. -/
def get_sticker_set (resp : Except Unit SetResponse) : Option StickerSet :=
  match resp with
  | .error _ => none
  | .ok r => if r.ok.getD false then r.result else none

/-- `TelegramAPI.get_custom_emoji_stickers`: same shape, degrading to the
empty list on exception or non-ok reply. -/
def get_custom_emoji_stickers (resp : Except Unit BatchResponse) : List Sticker :=
  match resp with
  | .error _ => []
  | .ok r => if r.ok.getD false then r.result.getD [] else []

/-- `TelegramAPI.get_file`: two-step resolution.  On a truthy `ok` flag the
code indexes `data["result"]` (a missing key raises and is caught → `None`,
modelled by the `none` branch) and reads `file_path`; a truthy (non-empty)
path is interpolated into the fixed download-URL template with the bot
token, anything else yields `None`. -/
def get_file (token : String) (resp : Except Unit FileResponse) : Option String :=
  match resp with
  | .error _ => none
  | .ok r =>
    if r.ok.getD false then
      match r.result with
      | none => none
      | some fr =>
        match fr.file_path with
        | some p =>
          if p = "" then none
          else some ("https://api.telegram.org/file/bot" ++ token ++ "/" ++ p)
        | none => none
    else none

/-- The `GET /pack` endpoint (`get_pack` in `main.py`).  `configured`
models `telegram_api` being initialized (a `BOT_TOKEN` is present); the
oracle `S` models `telegram_api.get_sticker_set` (name to optional pack
record) and `F` models `telegram_api.get_file` applied to a sticker's
optional `file_id` (the code passes `sticker.get("file_id")` verbatim).
`F ... or ""` is `Option.getD ""` since the only falsy string is `""`. -/
def get_pack (configured : Bool) (S : String → Option StickerSet)
    (F : Option String → Option String) (url : String) :
    Except HTTPError EmojiPack :=
  if configured then
    let pack_name := extract_pack_name url
    match S pack_name with
    | none => .error ⟨404, "Pack not found: " ++ pack_name⟩
    | some sticker_set =>
      let stickers := (sticker_set.stickers.getD []).map
        (fun sticker => sticker_to_emoji_data sticker ((F sticker.file_id).getD ""))
      .ok ⟨sticker_set.name.getD pack_name,
        sticker_set.title.getD pack_name,
        sticker_set.sticker_type.getD "custom_emoji",
        stickers,
        sticker_set.thumbnail.bind Thumb.file_id⟩
  else .error ⟨503, "Telegram API not configured"⟩

/-- The `GET /emoji/{emoji_id}` endpoint (`get_emoji` in `main.py`).  The
oracle `B` models `telegram_api.get_custom_emoji_stickers` on a list of
ids; an empty reply is a 404, otherwise the first record is resolved and
mapped. -/
def get_emoji (configured : Bool) (B : List String → List Sticker)
    (F : Option String → Option String) (emoji_id : String) :
    Except HTTPError EmojiData :=
  if configured then
    match B [emoji_id] with
    | [] => .error ⟨404, "Emoji not found: " ++ emoji_id⟩
    | sticker :: _ =>
      .ok (sticker_to_emoji_data sticker ((F sticker.file_id).getD ""))
  else .error ⟨503, "Telegram API not configured"⟩

/-- The `GET /manifest/{pack_id}` endpoint (`get_manifest` in `main.py`):
like `get_pack` but the identifier is used as-is (no `extract_pack_name`)
and the `EmojiPack` constructor omits `thumbnail` (pydantic default
`None`). -/
def get_manifest (configured : Bool) (S : String → Option StickerSet)
    (F : Option String → Option String) (pack_id : String) :
    Except HTTPError EmojiPack :=
  if configured then
    match S pack_id with
    | none => .error ⟨404, "Pack not found: " ++ pack_id⟩
    | some sticker_set =>
      let stickers := (sticker_set.stickers.getD []).map
        (fun sticker => sticker_to_emoji_data sticker ((F sticker.file_id).getD ""))
      .ok ⟨sticker_set.name.getD pack_id,
        sticker_set.title.getD pack_id,
        sticker_set.sticker_type.getD "custom_emoji",
        stickers,
        none⟩
  else .error ⟨503, "Telegram API not configured"⟩

/-- Concrete sticker record: an animated custom emoji with all keys. -/
def stA : Sticker :=
  ⟨some "ce1", some "f1", some "uid12345x", some "e", some 100, some 100,
    some true, some false, some "packA", some false⟩

/-- Concrete sticker record: a video sticker with most keys missing. -/
def stB : Sticker :=
  ⟨none, some "f2", some "uid2", none, none, none, none, some true, none, none⟩

/-- Concrete sticker record used solely to exercise the short-name rule. -/
def stC : Sticker :=
  ⟨none, some "fid", some "abcdefgh123", none, none, none, none, none,
    some "packA", none⟩

/-- Concrete upstream pack record holding `stA` and `stB`. -/
def ssA : StickerSet :=
  ⟨some "packA", some "Pack A", some "custom_emoji", some [stA, stB],
    some ⟨some "tfid"⟩⟩

/-- Concrete pack oracle: knows only the pack named `packA`. -/
def SA : String → Option StickerSet :=
  fun n => if n = "packA" then some ssA else none

/-- Concrete file-resolution oracle on which every lookup fails. -/
def Fnone : Option String → Option String := fun _ => none

/-- Concrete batch oracle returning no records. -/
def Bempty : List String → List Sticker := fun _ => []

/-- Concrete batch oracle returning the single record `stB`. -/
def Bone : List String → List Sticker := fun _ => [stB]

/-! ### Helper lemmas about the scanner embedding of the regex search -/

theorem prefixOf_append : ∀ p l : List Char, p.isPrefixOf l = true → ∃ t, l = p ++ t := by
  intro p
  induction p with
  | nil => intro l _; exact ⟨l, rfl⟩
  | cons a as ih =>
    intro l h
    cases l with
    | nil => simp [List.isPrefixOf] at h
    | cons b bs =>
      simp only [List.isPrefixOf, Bool.and_eq_true, beq_iff_eq] at h
      obtain ⟨t, ht⟩ := ih bs h.2
      exact ⟨t, by rw [h.1, ht]; rfl⟩

theorem takeWhile_length_le (p : Char → Bool) :
    ∀ l : List Char, (l.takeWhile p).length ≤ l.length := by
  intro l
  induction l with
  | nil => simp
  | cons a t ih =>
    cases hp : p a
    · simp [List.takeWhile_cons, hp]
    · simp only [List.takeWhile_cons, hp, if_true, List.length_cons]
      omega

theorem takeWhile_of_all (p : Char → Bool) :
    ∀ l : List Char, l.all p = true → l.takeWhile p = l := by
  intro l
  induction l with
  | nil => intro _; rfl
  | cons a t ih =>
    intro h
    simp only [List.all_cons, Bool.and_eq_true] at h
    simp only [List.takeWhile_cons, h.1, if_true, ih h.2]

theorem searchAux_cons (c : Char) (t : List Char) :
    searchAux (c :: t) =
      match matchAt (c :: t) with
      | some w => some w
      | none => searchAux t := rfl

theorem coreSearch_cons (c : Char) (t : List Char) :
    coreSearch (c :: t) =
      match coreMatch (c :: t) with
      | some w => some w
      | none => coreSearch t := rfl

theorem coreSearch_of_coreMatch (l : List Char) (w : List Char)
    (h : coreMatch l = some w) : coreSearch l = some w := by
  cases l with
  | nil => rw [show coreMatch ([] : List Char) = none from rfl] at h; simp at h
  | cons c t => rw [coreSearch_cons, h]

theorem matchAt_some_coreSearch (l : List Char) (w : List Char)
    (h : matchAt l = some w) : coreSearch l = some w := by
  unfold matchAt at h
  by_cases h1 : schemeHttps.isPrefixOf l = true
  · obtain ⟨t, rfl⟩ := prefixOf_append _ _ h1
    rw [if_pos h1] at h
    rw [show (schemeHttps ++ t).drop 8 = t from rfl] at h
    rw [show coreSearch (schemeHttps ++ t) = coreSearch t from rfl]
    exact coreSearch_of_coreMatch t w h
  · rw [if_neg h1] at h
    by_cases h2 : schemeHttp.isPrefixOf l = true
    · obtain ⟨t, rfl⟩ := prefixOf_append _ _ h2
      rw [if_pos h2] at h
      rw [show (schemeHttp ++ t).drop 7 = t from rfl] at h
      rw [show coreSearch (schemeHttp ++ t) = coreSearch t from rfl]
      exact coreSearch_of_coreMatch t w h
    · rw [if_neg h2] at h
      exact coreSearch_of_coreMatch l w h

theorem matchAt_none_coreMatch (l : List Char) (h : matchAt l = none) :
    coreMatch l = none := by
  by_cases h1 : schemeHttps.isPrefixOf l = true
  · obtain ⟨t, rfl⟩ := prefixOf_append _ _ h1
    rfl
  · by_cases h2 : schemeHttp.isPrefixOf l = true
    · obtain ⟨t, rfl⟩ := prefixOf_append _ _ h2
      rfl
    · unfold matchAt at h
      rw [if_neg h1, if_neg h2] at h
      exact h

theorem searchAux_eq_coreSearch : ∀ l : List Char, searchAux l = coreSearch l := by
  intro l
  induction l with
  | nil => rfl
  | cons c t ih =>
    cases h : matchAt (c :: t) with
    | some w =>
      rw [searchAux_cons, h, matchAt_some_coreSearch (c :: t) w h]
    | none =>
      rw [searchAux_cons, h, coreSearch_cons, matchAt_none_coreMatch (c :: t) h, ih]

theorem coreMatch_length (l : List Char) (w : List Char)
    (h : coreMatch l = some w) : w.length + 14 ≤ l.length := by
  unfold coreMatch at h
  by_cases hp : tme.isPrefixOf l = true
  · obtain ⟨t, rfl⟩ := prefixOf_append _ _ hp
    rw [if_pos hp] at h
    rw [show (tme ++ t).drop 14 = t from rfl] at h
    by_cases he : (t.takeWhile isWordChar).isEmpty = true
    · rw [if_pos he] at h; simp at h
    · rw [if_neg he] at h
      have hw : t.takeWhile isWordChar = w := by
        injection h
      have h1 : w.length ≤ t.length := by
        rw [← hw]; exact takeWhile_length_le isWordChar t
      have h2 : (tme ++ t).length = 14 + t.length := by
        rw [List.length_append]; rfl
      omega
  · rw [if_neg hp] at h; simp at h

theorem coreSearch_length (l : List Char) (w : List Char)
    (h : coreSearch l = some w) : w.length + 14 ≤ l.length := by
  induction l with
  | nil => rw [show coreSearch ([] : List Char) = none from rfl] at h; simp at h
  | cons c t ih =>
    rw [coreSearch_cons] at h
    cases hm : coreMatch (c :: t) with
    | some v =>
      rw [hm] at h
      simp only [] at h
      have hv : v = w := by injection h
      rw [← hv]
      exact coreMatch_length (c :: t) v hm
    | none =>
      rw [hm] at h
      simp only [] at h
      have := ih h
      simp only [List.length_cons]
      omega

theorem coreMatch_tme_append (nm : List Char) (hne : nm ≠ [])
    (hall : nm.all isWordChar = true) : coreMatch (tme ++ nm) = some nm := by
  unfold coreMatch
  rw [if_pos (show tme.isPrefixOf (tme ++ nm) = true from by
    induction nm with
    | nil => rfl
    | cons a t _ => rfl)]
  rw [show (tme ++ nm).drop 14 = nm from rfl]
  rw [takeWhile_of_all isWordChar nm hall]
  rw [if_neg (by cases nm with
    | nil => exact absurd rfl hne
    | cons a t => simp [List.isEmpty])]

theorem searchAux_of_matchAt (l : List Char) (w : List Char)
    (h : matchAt l = some w) : searchAux l = some w := by
  cases l with
  | nil => rw [show matchAt ([] : List Char) = none from rfl] at h; simp at h
  | cons c t => rw [searchAux_cons, h]

theorem extract_of_searchAux (s : String) (w : List Char)
    (h : searchAux s.data = some w) : extract_pack_name s = String.mk w := by
  unfold extract_pack_name
  rw [h]

theorem extract_of_searchAux_none (s : String)
    (h : searchAux s.data = none) : extract_pack_name s = s := by
  unfold extract_pack_name
  rw [h]

/-! ### Claim theorems -/

/-- C3 counterexample: the claim states that every input not matching the
sharing-link pattern is returned unchanged, but the code searches for the
pattern anywhere in the input: `"see t.me/addemoji/foo now"` is not a
sharing link as a whole, yet `extract_pack_name` rewrites it to `"foo"`
instead of returning it unchanged. -/
theorem c3_counterexample :
    isFullLink "see t.me/addemoji/foo now" = false ∧
    extract_pack_name "see t.me/addemoji/foo now" = "foo" ∧
    extract_pack_name "see t.me/addemoji/foo now" ≠ "see t.me/addemoji/foo now" :=
  ⟨by decide, by decide, by decide⟩

/-- C3 (amended): for every input that is entirely a sharing link
(optional `https://` or `http://` scheme, then `t.me/addemoji/`, then a
non-empty name of letters, digits and underscores) `extract_pack_name`
returns exactly the name segment; an input containing no occurrence of the
pattern is returned unchanged (inputs containing the pattern as a proper
substring are instead rewritten to the first captured name); in particular
the two spec examples hold. -/
theorem c3_full_link_normalize :
    (∀ sch nm : List Char,
        (sch = schemeHttps ∨ sch = schemeHttp ∨ sch = []) →
        nm ≠ [] → nm.all isWordChar = true →
        extract_pack_name (String.mk (sch ++ (tme ++ nm))) = String.mk nm) ∧
    (∀ s : String, coreSearch s.data = none → extract_pack_name s = s) ∧
    extract_pack_name "https://t.me/addemoji/foo_bar" = "foo_bar" ∧
    extract_pack_name "foo_bar" = "foo_bar" := by
  refine ⟨?_, ?_, by decide, by decide⟩
  · intro sch nm hsch hne hall
    have hc : coreMatch (tme ++ nm) = some nm := coreMatch_tme_append nm hne hall
    rcases hsch with h | h | h
    · subst h
      refine extract_of_searchAux _ nm ?_
      show searchAux (schemeHttps ++ (tme ++ nm)) = some nm
      refine searchAux_of_matchAt _ nm ?_
      rw [show matchAt (schemeHttps ++ (tme ++ nm)) = coreMatch (tme ++ nm) from rfl]
      exact hc
    · subst h
      refine extract_of_searchAux _ nm ?_
      show searchAux (schemeHttp ++ (tme ++ nm)) = some nm
      refine searchAux_of_matchAt _ nm ?_
      rw [show matchAt (schemeHttp ++ (tme ++ nm)) = coreMatch (tme ++ nm) from rfl]
      exact hc
    · subst h
      refine extract_of_searchAux _ nm ?_
      show searchAux (tme ++ nm) = some nm
      refine searchAux_of_matchAt _ nm ?_
      rw [show matchAt (tme ++ nm) = coreMatch (tme ++ nm) from rfl]
      exact hc
  · intro s h
    refine extract_of_searchAux_none s ?_
    rw [searchAux_eq_coreSearch]
    exact h

/-- C3 witness: the amended theorem applied at the bare-scheme link
`t.me/addemoji/ab` and at the pattern-free input `"zzz"`. -/
theorem c3_witness :
    (['a', 'b'] : List Char) ≠ [] ∧
    (['a', 'b'] : List Char).all isWordChar = true ∧
    extract_pack_name (String.mk (([] : List Char) ++ (tme ++ ['a', 'b']))) =
      String.mk ['a', 'b'] ∧
    coreSearch ("zzz" : String).data = none ∧
    extract_pack_name "zzz" = "zzz" :=
  ⟨by decide, by decide,
    c3_full_link_normalize.1 [] ['a', 'b'] (Or.inr (Or.inr rfl)) (by decide) (by decide),
    by decide,
    c3_full_link_normalize.2.1 "zzz" (by decide)⟩

/-- C10: the normalizer matches the sharing-link pattern anywhere inside
its input: whenever `t.me/addemoji/` followed by at least one word
character occurs as a substring, `extract_pack_name` returns the first
such captured (greedy) name — never the input itself — and only inputs
containing no such substring are returned unchanged.  `coreSearch` is the
first-occurrence scanner; `searchAux_eq_coreSearch` proves it coincides
with the code's full search including the optional scheme. -/
theorem c10_substring_search :
    (∀ (s : String) (w : List Char), coreSearch s.data = some w →
        extract_pack_name s = String.mk w ∧ extract_pack_name s ≠ s) ∧
    (∀ s : String, coreSearch s.data = none → extract_pack_name s = s) := by
  constructor
  · intro s w h
    have hs : searchAux s.data = some w := by
      rw [searchAux_eq_coreSearch]; exact h
    have he := extract_of_searchAux s w hs
    refine ⟨he, ?_⟩
    intro heq
    rw [he] at heq
    have hd : w = s.data := congrArg String.data heq
    have hlen := coreSearch_length s.data w h
    rw [hd] at hlen
    omega
  · intro s h
    refine extract_of_searchAux_none s ?_
    rw [searchAux_eq_coreSearch]
    exact h

/-- C10 witness: the theorem applied to an input embedding the pattern
between unrelated text, and to a pattern-free input. -/
theorem c10_witness :
    coreSearch ("a t.me/addemoji/zz b" : String).data = some ['z', 'z'] ∧
    extract_pack_name "a t.me/addemoji/zz b" = String.mk ['z', 'z'] ∧
    extract_pack_name "a t.me/addemoji/zz b" ≠ "a t.me/addemoji/zz b" ∧
    coreSearch ("plain_name" : String).data = none ∧
    extract_pack_name "plain_name" = "plain_name" :=
  ⟨by decide,
    (c10_substring_search.1 "a t.me/addemoji/zz b" ['z', 'z'] (by decide)).1,
    (c10_substring_search.1 "a t.me/addemoji/zz b" ['z', 'z'] (by decide)).2,
    by decide,
    c10_substring_search.2 "plain_name" (by decide)⟩

/-- C4: the item mapper is deterministic — equal (record, url) arguments
yield equal items — and the `file_type` of the mapped item follows the
precedence rule `is_animated` → `tgs`, else `is_video` → `webm`, else
`png`, for all four combinations of the two upstream boolean flags. -/
theorem c4_mapper_deterministic_format :
    (∀ (sa sb : Sticker) (ua ub : String), sa = sb → ua = ub →
        sticker_to_emoji_data sa ua = sticker_to_emoji_data sb ub) ∧
    (∀ (st : Sticker) (u : String),
        (sticker_to_emoji_data st u).file_type =
          if st.is_animated.getD false then "tgs"
          else if st.is_video.getD false then "webm"
          else "png") ∧
    (∀ (st : Sticker) (u : String) (a v : Bool),
        st.is_animated = some a → st.is_video = some v →
        (sticker_to_emoji_data st u).file_type =
          if a then "tgs" else if v then "webm" else "png") := by
  refine ⟨?_, ?_, ?_⟩
  · intro sa sb ua ub h1 h2
    rw [h1, h2]
  · intro st u
    rfl
  · intro st u a v h1 h2
    simp [sticker_to_emoji_data, h1, h2]

/-- C4 witness: the mapper theorem applied to the concrete animated record
`stA` (flags `is_animated = true`, `is_video = false`, format `tgs`). -/
theorem c4_witness :
    stA = stA ∧ ("u" : String) = "u" ∧
    sticker_to_emoji_data stA "u" = sticker_to_emoji_data stA "u" ∧
    stA.is_animated = some true ∧ stA.is_video = some false ∧
    (sticker_to_emoji_data stA "u").file_type =
      (if true then "tgs" else if false then "webm" else "png") :=
  ⟨rfl, rfl, c4_mapper_deterministic_format.1 stA stA "u" "u" rfl rfl, rfl, rfl,
    c4_mapper_deterministic_format.2.2 stA "u" true false rfl rfl⟩

/-- C9 counterexample: `short_name` is not the plain concatenation of the
pack name and the first 8 characters of the unique file id — the code
inserts an underscore between them.  For `stC` (pack `packA`, unique id
`abcdefgh123`) the code yields `packA_abcdefgh`, not `packAabcdefgh`. -/
theorem c9_counterexample :
    (sticker_to_emoji_data stC "u").short_name ≠
      stC.set_name.getD "emoji" ++ (stC.file_unique_id.getD "").take 8 ∧
    (sticker_to_emoji_data stC "u").short_name = "packA_abcdefgh" :=
  ⟨by decide, by decide⟩

/-- C9 (amended): the mapped item's `short_name` is the record's pack name
(or the literal fallback `emoji` when the pack name is missing), then an
underscore separator, then the first 8 characters of the record's
unique-file-identifier. -/
theorem c9_short_name_rule (st : Sticker) (u : String) :
    (sticker_to_emoji_data st u).short_name =
      st.set_name.getD "emoji" ++ "_" ++ (st.file_unique_id.getD "").take 8 := rfl

/-- C1: when the upstream pack record is found, `get_pack` succeeds and
returns one item per upstream sticker record in upstream order: the item
list is exactly the in-order map of the records, the i-th output item is
the mapping of the i-th record, and when every file-location call fails
(`F` constantly `none`) the request still succeeds with every item present
and every source URL absent (the code encodes absence as `file_url = ""`,
via `... or ""`). -/
theorem c1_pack_items_positional (S : String → Option StickerSet)
    (F : Option String → Option String) (url : String) (ss : StickerSet)
    (h : S (extract_pack_name url) = some ss) :
    ∃ pack : EmojiPack,
      get_pack true S F url = .ok pack ∧
      pack.stickers = (ss.stickers.getD []).map
        (fun st => sticker_to_emoji_data st ((F st.file_id).getD "")) ∧
      pack.stickers.length = (ss.stickers.getD []).length ∧
      (∀ i : Nat, pack.stickers[i]? =
        ((ss.stickers.getD [])[i]?).map
          (fun st => sticker_to_emoji_data st ((F st.file_id).getD ""))) ∧
      ((∀ fid, F fid = none) → ∀ e ∈ pack.stickers, e.file_url = "") := by
  refine ⟨⟨ss.name.getD (extract_pack_name url), ss.title.getD (extract_pack_name url),
    ss.sticker_type.getD "custom_emoji",
    (ss.stickers.getD []).map (fun st => sticker_to_emoji_data st ((F st.file_id).getD "")),
    ss.thumbnail.bind Thumb.file_id⟩, ?_, rfl, ?_, ?_, ?_⟩
  · simp [get_pack, h]
  · simp
  · intro i
    simp
  · intro hF e he
    simp only [List.mem_map] at he
    obtain ⟨st, _, rfl⟩ := he
    rw [hF st.file_id]
    rfl

/-- C1 witness: the theorem applied to the concrete oracle `SA` (which
knows pack `packA` with two stickers) and the all-failing resolver
`Fnone`. -/
theorem c1_witness :
    SA (extract_pack_name "packA") = some ssA ∧
    (∃ pack : EmojiPack,
      get_pack true SA Fnone "packA" = .ok pack ∧
      pack.stickers = (ssA.stickers.getD []).map
        (fun st => sticker_to_emoji_data st ((Fnone st.file_id).getD "")) ∧
      pack.stickers.length = (ssA.stickers.getD []).length ∧
      (∀ i : Nat, pack.stickers[i]? =
        ((ssA.stickers.getD [])[i]?).map
          (fun st => sticker_to_emoji_data st ((Fnone st.file_id).getD ""))) ∧
      ((∀ fid, Fnone fid = none) → ∀ e ∈ pack.stickers, e.file_url = "")) :=
  ⟨by decide, c1_pack_items_positional SA Fnone "packA" ssA (by decide)⟩

/-- C2: each upstream client operation degrades to its absent/empty result
(`none`, `[]`, `none`) on a transport exception (`.error ()`) and on a
non-ok service reply, instead of propagating an error value; and the three
pipeline endpoints can only fail with the NotConfigured 503 error or a
NotFound 404 error carrying the offending identifier — no other error
shape is reachable. -/
theorem c2_client_absorbs_faults :
    (∀ resp : Except Unit SetResponse,
        resp = .error () ∨ (∃ r, resp = .ok r ∧ r.ok.getD false = false) →
        get_sticker_set resp = none) ∧
    (∀ resp : Except Unit BatchResponse,
        resp = .error () ∨ (∃ r, resp = .ok r ∧ r.ok.getD false = false) →
        get_custom_emoji_stickers resp = []) ∧
    (∀ (token : String) (resp : Except Unit FileResponse),
        resp = .error () ∨ (∃ r, resp = .ok r ∧ r.ok.getD false = false) →
        get_file token resp = none) ∧
    (∀ (cfg : Bool) (S : String → Option StickerSet)
        (F : Option String → Option String) (url : String) (e : HTTPError),
        get_pack cfg S F url = .error e →
        e = ⟨503, "Telegram API not configured"⟩ ∨
        e = ⟨404, "Pack not found: " ++ extract_pack_name url⟩) ∧
    (∀ (cfg : Bool) (B : List String → List Sticker)
        (F : Option String → Option String) (eid : String) (e : HTTPError),
        get_emoji cfg B F eid = .error e →
        e = ⟨503, "Telegram API not configured"⟩ ∨
        e = ⟨404, "Emoji not found: " ++ eid⟩) ∧
    (∀ (cfg : Bool) (S : String → Option StickerSet)
        (F : Option String → Option String) (pid : String) (e : HTTPError),
        get_manifest cfg S F pid = .error e →
        e = ⟨503, "Telegram API not configured"⟩ ∨
        e = ⟨404, "Pack not found: " ++ pid⟩) := by
  refine ⟨?_, ?_, ?_, ?_, ?_, ?_⟩
  · intro resp h
    rcases h with rfl | ⟨r, rfl, hr⟩
    · rfl
    · simp [get_sticker_set, hr]
  · intro resp h
    rcases h with rfl | ⟨r, rfl, hr⟩
    · rfl
    · simp [get_custom_emoji_stickers, hr]
  · intro token resp h
    rcases h with rfl | ⟨r, rfl, hr⟩
    · rfl
    · simp [get_file, hr]
  · intro cfg S F url e h
    cases cfg with
    | false =>
      simp [get_pack] at h
      exact Or.inl h.symm
    | true =>
      cases hS : S (extract_pack_name url) with
      | none =>
        simp [get_pack, hS] at h
        exact Or.inr h.symm
      | some ss => simp [get_pack, hS] at h
  · intro cfg B F eid e h
    cases cfg with
    | false =>
      simp [get_emoji] at h
      exact Or.inl h.symm
    | true =>
      cases hB : B [eid] with
      | nil =>
        simp [get_emoji, hB] at h
        exact Or.inr h.symm
      | cons st rest => simp [get_emoji, hB] at h
  · intro cfg S F pid e h
    cases cfg with
    | false =>
      simp [get_manifest] at h
      exact Or.inl h.symm
    | true =>
      cases hS : S pid with
      | none =>
        simp [get_manifest, hS] at h
        exact Or.inr h.symm
      | some ss => simp [get_manifest, hS] at h

/-- C2 witness: each client operation evaluated on a transport exception
and on a non-ok reply, and the pipeline error shape extracted from the
concrete unconfigured call `get_pack false SA Fnone "u"`. -/
theorem c2_witness :
    get_sticker_set (.error ()) = none ∧
    get_custom_emoji_stickers (.error ()) = [] ∧
    get_file "tok" (.error ()) = none ∧
    get_sticker_set (.ok ⟨some false, some ssA⟩) = none ∧
    ((⟨503, "Telegram API not configured"⟩ : HTTPError) =
        ⟨503, "Telegram API not configured"⟩ ∨
      (⟨503, "Telegram API not configured"⟩ : HTTPError) =
        ⟨404, "Pack not found: " ++ extract_pack_name "u"⟩) :=
  ⟨c2_client_absorbs_faults.1 (.error ()) (Or.inl rfl),
    c2_client_absorbs_faults.2.1 (.error ()) (Or.inl rfl),
    c2_client_absorbs_faults.2.2.1 "tok" (.error ()) (Or.inl rfl),
    c2_client_absorbs_faults.1 (.ok ⟨some false, some ssA⟩)
      (Or.inr ⟨⟨some false, some ssA⟩, rfl, rfl⟩),
    c2_client_absorbs_faults.2.2.2.1 false SA Fnone "u"
      ⟨503, "Telegram API not configured"⟩ rfl⟩

/-- C5: with the credential configured, `get_pack` fails with the 404
`Pack not found` error naming the normalized pack name exactly when the
upstream pack lookup returns absent, and `get_emoji` fails with the 404
`Emoji not found` error naming the item id exactly when the one-element
batch lookup returns empty; when the batch is non-empty the endpoint
resolves the first record's file location and returns its mapping. -/
theorem c5_notfound_iff_absent :
    (∀ (S : String → Option StickerSet) (F : Option String → Option String)
        (url : String),
        (get_pack true S F url =
            .error ⟨404, "Pack not found: " ++ extract_pack_name url⟩ ↔
          S (extract_pack_name url) = none)) ∧
    (∀ (B : List String → List Sticker) (F : Option String → Option String)
        (eid : String),
        (get_emoji true B F eid = .error ⟨404, "Emoji not found: " ++ eid⟩ ↔
          B [eid] = [])) ∧
    (∀ (B : List String → List Sticker) (F : Option String → Option String)
        (eid : String) (st : Sticker) (rest : List Sticker),
        B [eid] = st :: rest →
        get_emoji true B F eid =
          .ok (sticker_to_emoji_data st ((F st.file_id).getD ""))) := by
  refine ⟨?_, ?_, ?_⟩
  · intro S F url
    constructor
    · intro h
      cases hS : S (extract_pack_name url) with
      | none => rfl
      | some ss => simp [get_pack, hS] at h
    · intro h
      simp [get_pack, h]
  · intro B F eid
    constructor
    · intro h
      cases hB : B [eid] with
      | nil => rfl
      | cons st rest => simp [get_emoji, hB] at h
    · intro h
      simp [get_emoji, h]
  · intro B F eid st rest h
    simp [get_emoji, h]

/-- C5 witness: the pack iff at a name `SA` does not know, the emoji iff at
the empty batch oracle, and the success case at the one-record batch
oracle `Bone`. -/
theorem c5_witness :
    (get_pack true SA Fnone "nope" =
        .error ⟨404, "Pack not found: " ++ extract_pack_name "nope"⟩ ↔
      SA (extract_pack_name "nope") = none) ∧
    (get_emoji true Bempty Fnone "77" =
        .error ⟨404, "Emoji not found: " ++ "77"⟩ ↔ Bempty ["77"] = []) ∧
    Bone ["77"] = stB :: [] ∧
    get_emoji true Bone Fnone "77" =
      .ok (sticker_to_emoji_data stB ((Fnone stB.file_id).getD "")) :=
  ⟨c5_notfound_iff_absent.1 SA Fnone "nope",
    c5_notfound_iff_absent.2.1 Bempty Fnone "77",
    rfl,
    c5_notfound_iff_absent.2.2 Bone Fnone "77" stB [] rfl⟩

/-- C6: with no credential configured each of the three endpoints returns
the NotConfigured 503 error.  The result is a constant, independent of the
upstream oracles `S`, `B` and `F`, which formalizes that no upstream call
is attempted (no upstream reply can influence the outcome). -/
theorem c6_unconfigured_503 :
    (∀ (S : String → Option StickerSet) (F : Option String → Option String)
        (url : String),
        get_pack false S F url = .error ⟨503, "Telegram API not configured"⟩) ∧
    (∀ (B : List String → List Sticker) (F : Option String → Option String)
        (eid : String),
        get_emoji false B F eid = .error ⟨503, "Telegram API not configured"⟩) ∧
    (∀ (S : String → Option StickerSet) (F : Option String → Option String)
        (pid : String),
        get_manifest false S F pid = .error ⟨503, "Telegram API not configured"⟩) :=
  ⟨fun _ _ _ => rfl, fun _ _ _ => rfl, fun _ _ _ => rfl⟩

/-- C7: `get_file` performs the two-step resolution: when the reply's `ok`
flag is truthy and a non-empty `file_path` token is present it returns the
URL obtained by interpolating the credential and the token into the fixed
template `https://api.telegram.org/file/bot<token>/<path>`; it returns
`none` on a transport exception, a non-ok reply, a missing `result`
object, or a missing path token (the code also treats an empty-string
token as missing, by Python truthiness). -/
theorem c7_file_resolution :
    (∀ (token : String) (r : FileResponse) (fr : FileResult) (p : String),
        r.ok.getD false = true → r.result = some fr → fr.file_path = some p →
        p ≠ "" →
        get_file token (.ok r) =
          some ("https://api.telegram.org/file/bot" ++ token ++ "/" ++ p)) ∧
    (∀ token : String, get_file token (.error ()) = none) ∧
    (∀ (token : String) (r : FileResponse), r.ok.getD false = false →
        get_file token (.ok r) = none) ∧
    (∀ (token : String) (r : FileResponse), r.result = none →
        get_file token (.ok r) = none) ∧
    (∀ (token : String) (r : FileResponse) (fr : FileResult),
        r.result = some fr → fr.file_path = none →
        get_file token (.ok r) = none) := by
  refine ⟨?_, fun _ => rfl, ?_, ?_, ?_⟩
  · intro token r fr p h1 h2 h3 h4
    simp [get_file, h1, h2, h3, h4]
  · intro token r h
    simp [get_file, h]
  · intro token r h
    cases hok : r.ok.getD false with
    | false => simp [get_file, hok]
    | true => simp [get_file, hok, h]
  · intro token r fr h1 h2
    cases hok : r.ok.getD false with
    | false => simp [get_file, hok]
    | true => simp [get_file, hok, h1, h2]

/-- C7 witness: the resolution theorem applied to a concrete successful
reply with path `p/q.png` and token `tok`, and to the degraded cases. -/
theorem c7_witness :
    get_file "tok" (.ok ⟨some true, some ⟨some "p/q.png"⟩⟩) =
      some ("https://api.telegram.org/file/bot" ++ "tok" ++ "/" ++ "p/q.png") ∧
    get_file "tok" (.error ()) = none ∧
    get_file "tok" (.ok ⟨some false, some ⟨some "p/q.png"⟩⟩) = none ∧
    get_file "tok" (.ok ⟨some true, none⟩) = none ∧
    get_file "tok" (.ok ⟨some true, some ⟨none⟩⟩) = none :=
  ⟨c7_file_resolution.1 "tok" ⟨some true, some ⟨some "p/q.png"⟩⟩ ⟨some "p/q.png"⟩
      "p/q.png" rfl rfl rfl (by decide),
    c7_file_resolution.2.1 "tok",
    c7_file_resolution.2.2.1 "tok" ⟨some false, some ⟨some "p/q.png"⟩⟩ rfl,
    c7_file_resolution.2.2.2.1 "tok" ⟨some true, none⟩ rfl,
    c7_file_resolution.2.2.2.2 "tok" ⟨some true, some ⟨none⟩⟩ ⟨none⟩ rfl rfl⟩

/-- C8: for every identifier and upstream behaviour, `get_manifest` on the
normalized name returns exactly what `get_pack` returns on the raw input
with the pack's thumbnail field cleared: same error cases and same name,
title, kind and ordered item sequence.  The composition with
`extract_pack_name` on the left captures the only other difference — the
manifest endpoint applies no normalization to its identifier. -/
theorem c8_manifest_refines_pack (cfg : Bool) (S : String → Option StickerSet)
    (F : Option String → Option String) (url : String) :
    get_manifest cfg S F (extract_pack_name url) =
      Except.map
        (fun p : EmojiPack => ⟨p.name, p.title, p.sticker_type, p.stickers, none⟩)
        (get_pack cfg S F url) := by
  cases cfg with
  | false => rfl
  | true =>
    cases hS : S (extract_pack_name url) with
    | none => simp [get_manifest, get_pack, hS, Except.map]
    | some ss => simp [get_manifest, get_pack, hS, Except.map]

end Tmoji
